import Mathlib

/-!
Verification development for the InfinitySoul symphony core
(`src/services/symphony`): a shallow embedding of the data model and the
operations of the agent-ensemble feedback loop, with proofs of the spec's
testable properties.  Python floats are modelled as exact rationals (ℚ);
Python dicts of numeric fields as association lists; the JSON file used by
the iteration-log checkpoint as an explicit JSON value.
-/

/-- Model of `VibeSignature` (src/services/symphony/core/models.py): the seven impact
categories of a reading. -/
inductive VibeSignature
  | CLEAN
  | WARM
  | MUDDY
  | EXTRACTIVE
  | DIMINISHING
  | GENEROUS
  | EMPOWERING
  deriving DecidableEq, Repr

/-- The string value of a signature (the Python enum is a `str` enum, so this
is what `json.dump` writes). -/
def VibeSignature.value : VibeSignature → String
  | .CLEAN => "clean"
  | .WARM => "warm"
  | .MUDDY => "muddy"
  | .EXTRACTIVE => "extractive"
  | .DIMINISHING => "diminishing"
  | .GENEROUS => "generous"
  | .EMPOWERING => "empowering"

/-- Model of `Vibe` (src/services/symphony/core/models.py), the SignalReading of the
spec.  Field defaults are the pydantic `Field(default=...)` values. -/
structure Vibe where
  signature : VibeSignature := VibeSignature.CLEAN
  confidence : ℚ := 0.8
  generosity : ℚ := 0.5
  sovereignty : ℚ := 1
  aura : String := "neutral"
  sovereignty_delta : ℚ := 0
  dignity_delta : ℚ := 0
  defense_delta : ℚ := 0
  profit_delta : ℚ := 0
  deriving DecidableEq, Repr

/-- Model of `Vibe.overall_score` (models.py line 39-41). -/
def Vibe.overall_score (v : Vibe) : ℚ :=
  (v.confidence + v.generosity + v.sovereignty) / 3

/-- Model of `VibeMeter.read` (src/services/symphony/utils/vibe_meter.py lines 29-96):
the Scorer.  Pure function of the four deltas. -/
def VibeMeter.read (sovereignty_delta dignity_delta defense_delta profit_delta : ℚ) : Vibe :=
  let generosity := (sovereignty_delta + dignity_delta + defense_delta) / 3
  let signature :=
    if sovereignty_delta < -0.3 ∨ dignity_delta < -0.3 then VibeSignature.DIMINISHING
    else if profit_delta > 0 ∧ generosity < -0.1 then VibeSignature.EXTRACTIVE
    else if generosity > 0.3 then VibeSignature.GENEROUS
    else if sovereignty_delta > 0.2 ∨ dignity_delta > 0.2 then VibeSignature.EMPOWERING
    else if |generosity| < 0.1 ∧ |profit_delta| < 0.1 then VibeSignature.CLEAN
    else if profit_delta > 0 ∧ generosity < 0 then VibeSignature.MUDDY
    else VibeSignature.WARM
  let aura :=
    if signature = VibeSignature.GENEROUS ∨ signature = VibeSignature.EMPOWERING then "warm"
    else if signature = VibeSignature.EXTRACTIVE ∨ signature = VibeSignature.DIMINISHING then "cold"
    else if signature = VibeSignature.MUDDY then "muddy"
    else "neutral"
  let signal_clarity := |generosity| + |sovereignty_delta|
  let confidence := min 0.95 (0.6 + signal_clarity * 0.3)
  let sovereignty := max 0 (min 1 (0.5 + sovereignty_delta))
  { signature := signature
    confidence := confidence
    generosity := max 0 (min 1 (0.5 + generosity))
    sovereignty := sovereignty
    aura := aura
    sovereignty_delta := sovereignty_delta
    dignity_delta := dignity_delta
    defense_delta := defense_delta
    profit_delta := profit_delta }

/-- The category-selection rule exactly as the spec words it (§4.2 of
spec.md): first-match-wins over the priority list, with `generosity_signal`
the mean of the first three deltas.  Stated separately from
`VibeMeter.read` so the code's selection can be compared against it. -/
def specCategory (autonomy_delta dignity_delta defense_delta value_delta : ℚ) : VibeSignature :=
  let generosity_signal := (autonomy_delta + dignity_delta + defense_delta) / 3
  if autonomy_delta < -0.3 ∨ dignity_delta < -0.3 then VibeSignature.DIMINISHING
  else if value_delta > 0 ∧ generosity_signal < -0.1 then VibeSignature.EXTRACTIVE
  else if generosity_signal > 0.3 then VibeSignature.GENEROUS
  else if autonomy_delta > 0.2 ∨ dignity_delta > 0.2 then VibeSignature.EMPOWERING
  else if |generosity_signal| < 0.1 ∧ |value_delta| < 0.1 then VibeSignature.CLEAN
  else if value_delta > 0 ∧ generosity_signal < 0 then VibeSignature.MUDDY
  else VibeSignature.WARM

/-- C1: the Scorer's category is selected by first-match-wins in the spec's
priority order (DIMINISHING, EXTRACTIVE, GENEROUS, EMPOWERING, CLEAN, MUDDY,
WARM), with `generosity_signal` the mean of the first three deltas; in
particular `score(-0.2, -0.1, -0.1, 0.5)` is categorized EXTRACTIVE. -/
theorem vibe_read_category_priority :
    (∀ a d f p : ℚ, (VibeMeter.read a d f p).signature = specCategory a d f p) ∧
    (VibeMeter.read (-0.2) (-0.1) (-0.1) 0.5).signature = VibeSignature.EXTRACTIVE := by
  constructor
  · intro a d f p
    rfl
  · norm_num [VibeMeter.read]

/-- C2: for every real-valued delta input, the reading produced by the Scorer
has confidence, generosity and sovereignty each within `[0, 1]`. -/
theorem vibe_read_scalars_range (a d f p : ℚ) :
    (0 ≤ (VibeMeter.read a d f p).confidence ∧ (VibeMeter.read a d f p).confidence ≤ 1) ∧
    (0 ≤ (VibeMeter.read a d f p).generosity ∧ (VibeMeter.read a d f p).generosity ≤ 1) ∧
    (0 ≤ (VibeMeter.read a d f p).sovereignty ∧ (VibeMeter.read a d f p).sovereignty ≤ 1) := by
  simp only [VibeMeter.read]
  refine ⟨⟨?_, ?_⟩, ⟨?_, ?_⟩, ⟨?_, ?_⟩⟩
  · exact le_min (by norm_num) (by positivity)
  · exact le_trans (min_le_left _ _) (by norm_num)
  · exact le_max_left 0 _
  · exact max_le (by norm_num) (min_le_left 1 _)
  · exact le_max_left 0 _
  · exact max_le (by norm_num) (min_le_left 1 _)

/-- C2 witness at a concrete input. -/
theorem vibe_read_scalars_range_witness :
    (0 ≤ (VibeMeter.read 0.7 (-0.2) 0.1 2).confidence ∧
      (VibeMeter.read 0.7 (-0.2) 0.1 2).confidence ≤ 1) ∧
    (0 ≤ (VibeMeter.read 0.7 (-0.2) 0.1 2).generosity ∧
      (VibeMeter.read 0.7 (-0.2) 0.1 2).generosity ≤ 1) ∧
    (0 ≤ (VibeMeter.read 0.7 (-0.2) 0.1 2).sovereignty ∧
      (VibeMeter.read 0.7 (-0.2) 0.1 2).sovereignty ≤ 1) :=
  vibe_read_scalars_range 0.7 (-0.2) 0.1 2

/-- C8: scoring the all-zero deltas yields category CLEAN, and the reading's
overall score `(0.6 + 0.5 + 0.5)/3 = 8/15` lies within `0.05` of the `0.5`
midpoint baseline. -/
theorem vibe_read_zero_clean_midpoint :
    (VibeMeter.read 0 0 0 0).signature = VibeSignature.CLEAN ∧
    (VibeMeter.read 0 0 0 0).overall_score = 8 / 15 ∧
    |(VibeMeter.read 0 0 0 0).overall_score - 0.5| < 0.05 := by
  have hsig : (VibeMeter.read 0 0 0 0).signature = VibeSignature.CLEAN := by
    norm_num [VibeMeter.read]
  have hscore : (VibeMeter.read 0 0 0 0).overall_score = 8 / 15 := by
    norm_num [VibeMeter.read, Vibe.overall_score, min_def, max_def]
  refine ⟨hsig, hscore, ?_⟩
  rw [hscore, abs_sub_lt_iff]
  constructor <;> norm_num

/-- Model of `Metronome` (src/services/symphony/utils/metronome.py).  `last_beat` is a
wall-clock value used only by `beat`/`is_on_beat`; `calibrate` depends only on
the threshold, so only the configuration fields are modelled. -/
structure Metronome where
  bpm : ℕ := 30
  threshold : ℚ := 30
  deriving DecidableEq, Repr

/-- Model of `Metronome.calibrate` (metronome.py lines 40-66): piecewise tempo
adjustment from the average latency spike. -/
def Metronome.calibrate (m : Metronome) (latency_spikes : List ℚ) : ℚ :=
  match latency_spikes with
  | [] => 0
  | _ =>
    let avg_spike := latency_spikes.sum / (latency_spikes.length : ℚ)
    if avg_spike > m.threshold * 2 then -0.5
    else if avg_spike > m.threshold * 1.5 then -0.3
    else if avg_spike > m.threshold then -0.1
    else 0

/-- The spec's piecewise rate (§4.3 of spec.md) as a function of the average,
used to state calibrate's shape and monotonicity. -/
def tempoRate (threshold avg : ℚ) : ℚ :=
  if avg > threshold * 2 then -0.5
  else if avg > threshold * 1.5 then -0.3
  else if avg > threshold then -0.1
  else 0

/-- Helper: on a non-empty list, `calibrate` is the piecewise rate of the
average spike. -/
lemma Metronome.calibrate_cons (m : Metronome) (x : ℚ) (xs : List ℚ) :
    m.calibrate (x :: xs) =
      tempoRate m.threshold ((x :: xs).sum / ((x :: xs).length : ℚ)) := rfl

/-- Helper: the piecewise rate always lies in `[-0.5, 0]`. -/
lemma tempoRate_mem_range (t avg : ℚ) : -0.5 ≤ tempoRate t avg ∧ tempoRate t avg ≤ 0 := by
  unfold tempoRate
  split_ifs <;> norm_num

/-- Helper: `calibrate` always lies in `[-0.5, 0]`. -/
lemma Metronome.calibrate_mem_range (m : Metronome) (spikes : List ℚ) :
    -0.5 ≤ m.calibrate spikes ∧ m.calibrate spikes ≤ 0 := by
  match spikes with
  | [] =>
    have h : m.calibrate [] = 0 := rfl
    rw [h]
    norm_num
  | x :: xs =>
    rw [Metronome.calibrate_cons]
    exact tempoRate_mem_range _ _

/-- Helper: the piecewise rate is antitone in the average. -/
lemma tempoRate_antitone (t : ℚ) {a b : ℚ} (hab : a ≤ b) :
    tempoRate t b ≤ tempoRate t a := by
  unfold tempoRate
  split_ifs <;> linarith

/-- C7: `calibrate` returns 0 on the empty outlier list; on a non-empty list
it returns the piecewise rate of the average (with the default threshold 30:
`-0.5` above `2×30`, `-0.3` above `1.5×30`, `-0.1` above `30`, else `0`); its
result always lies in `[-0.5, 0]`; and the rate is monotonically more
negative as the average grows. -/
theorem metronome_calibrate_piecewise :
    (Metronome.calibrate {} [] = 0) ∧
    (∀ (x : ℚ) (xs : List ℚ), Metronome.calibrate {} (x :: xs) =
        tempoRate 30 ((x :: xs).sum / ((x :: xs).length : ℚ))) ∧
    (∀ spikes : List ℚ,
        -0.5 ≤ Metronome.calibrate {} spikes ∧ Metronome.calibrate {} spikes ≤ 0) ∧
    (∀ a b : ℚ, a ≤ b → tempoRate 30 b ≤ tempoRate 30 a) := by
  refine ⟨rfl, ?_, ?_, ?_⟩
  · intro x xs
    exact Metronome.calibrate_cons {} x xs
  · intro spikes
    exact Metronome.calibrate_mem_range {} spikes
  · intro a b hab
    exact tempoRate_antitone 30 hab

/-- C7 witness: the monotone part applied at the spec's concrete inputs
35 ≤ 70, where the rates are `-0.1` and `-0.5` respectively. -/
theorem metronome_calibrate_piecewise_witness :
    (35 : ℚ) ≤ 70 ∧ tempoRate 30 70 ≤ tempoRate 30 35 ∧
    Metronome.calibrate {} [35] = -0.1 ∧ Metronome.calibrate {} [70] = -0.5 := by
  refine ⟨by norm_num, metronome_calibrate_piecewise.2.2.2 35 70 (by norm_num), ?_, ?_⟩
  · rw [metronome_calibrate_piecewise.2.1 35 []]
    norm_num [tempoRate]
  · rw [metronome_calibrate_piecewise.2.1 70 []]
    norm_num [tempoRate]

/-- Model of `Harmonizer.resolve` (src/services/symphony/utils/harmonizer.py lines
24-42): clash severity capped at 10 clashes, negated and halved. -/
def Harmonizer.resolve (ethical_clashes : List String) : ℚ :=
  match ethical_clashes with
  | [] => 0
  | _ =>
    let severity := min 1 ((ethical_clashes.length : ℚ) / 10);
    -severity * 0.5

/-- Helper: `resolve` never returns a positive adjustment. -/
lemma Harmonizer.resolve_nonpos (ethical_clashes : List String) :
    Harmonizer.resolve ethical_clashes ≤ 0 := by
  match ethical_clashes with
  | [] => exact le_refl 0
  | c :: cs =>
    show -min 1 (((c :: cs).length : ℚ) / 10) * 0.5 ≤ 0
    have h0 : (0 : ℚ) ≤ min 1 (((c :: cs).length : ℚ) / 10) :=
      le_min (by norm_num) (by positivity)
    nlinarith

/-- Key insertion for the signature-count dict of `blend_vibes`
(harmonizer.py lines 69-71): Python dicts preserve first-occurrence order. -/
def insertKey (ks : List VibeSignature) (s : VibeSignature) : List VibeSignature :=
  if s ∈ ks then ks else ks ++ [s]

/-- The insertion-ordered key list of the signature-count dict. -/
def sigKeys (vibes : List Vibe) : List VibeSignature :=
  vibes.foldl (fun ks v => insertKey ks v.signature) []

/-- The count of one signature among the vibes (the dict's value). -/
def countSig (vibes : List Vibe) (s : VibeSignature) : ℕ :=
  (vibes.filter (fun v => v.signature == s)).length

/-- Python's `max(items, key=...)`: scans the keys keeping the first one of
maximal count (ties keep the earlier key). -/
def maxCountKey (vibes : List Vibe) : List VibeSignature → VibeSignature → VibeSignature
  | [], best => best
  | s :: rest, best =>
      maxCountKey vibes rest (if countSig vibes s > countSig vibes best then s else best)

/-- The dominant signature of `blend_vibes` (harmonizer.py lines 68-73). -/
def dominantSignature (vibes : List Vibe) : VibeSignature :=
  match sigKeys vibes with
  | [] => VibeSignature.CLEAN
  | k :: ks => maxCountKey vibes ks k

/-- Model of `Harmonizer.blend_vibes` (harmonizer.py lines 44-99): the Blender. -/
def Harmonizer.blend_vibes (vibes : List Vibe) : Vibe :=
  match vibes with
  | [] => { signature := VibeSignature.CLEAN }
  | _ =>
    let n : ℚ := (vibes.length : ℚ)
    let avg_confidence := (vibes.map Vibe.confidence).sum / n
    let avg_generosity := (vibes.map Vibe.generosity).sum / n
    let avg_sovereignty := (vibes.map Vibe.sovereignty).sum / n
    let avg_sov_delta := (vibes.map Vibe.sovereignty_delta).sum / n
    let avg_dig_delta := (vibes.map Vibe.dignity_delta).sum / n
    let avg_def_delta := (vibes.map Vibe.defense_delta).sum / n
    let avg_profit_delta := (vibes.map Vibe.profit_delta).sum / n
    let warm_count : ℚ := ((vibes.filter (fun v => v.aura == "warm")).length : ℚ)
    let cold_count : ℚ := ((vibes.filter (fun v => v.aura == "cold")).length : ℚ)
    let muddy_count : ℚ := ((vibes.filter (fun v => v.aura == "muddy")).length : ℚ)
    let aura :=
      if warm_count > n / 2 then "warm"
      else if cold_count > n / 3 then "cold"
      else if muddy_count > n / 3 then "muddy"
      else "neutral"
    { signature := dominantSignature vibes
      confidence := avg_confidence
      generosity := avg_generosity
      sovereignty := avg_sovereignty
      aura := aura
      sovereignty_delta := avg_sov_delta
      dignity_delta := avg_dig_delta
      defense_delta := avg_def_delta
      profit_delta := avg_profit_delta }

/-- C6: blending the empty list of readings returns the default reading:
category CLEAN with every scalar at its neutral baseline (the model's
defaults: confidence 0.8, generosity 0.5, sovereignty 1). -/
theorem blend_vibes_empty_default :
    Harmonizer.blend_vibes [] = { signature := VibeSignature.CLEAN } ∧
    (Harmonizer.blend_vibes []).signature = VibeSignature.CLEAN ∧
    (Harmonizer.blend_vibes []).confidence = 0.8 ∧
    (Harmonizer.blend_vibes []).generosity = 0.5 ∧
    (Harmonizer.blend_vibes []).sovereignty = 1 ∧
    (Harmonizer.blend_vibes []).aura = "neutral" :=
  ⟨rfl, rfl, rfl, rfl, rfl, rfl⟩

/-- Helper: the sum of a list of rationals that are each at most 1 is at most
the list's length. -/
lemma list_sum_le_length (l : List ℚ) (h : ∀ x ∈ l, x ≤ 1) :
    l.sum ≤ (l.length : ℚ) := by
  induction l with
  | nil => simp
  | cons x xs ih =>
    simp only [List.sum_cons, List.length_cons]
    push_cast
    have hx := h x (by simp)
    have hxs := ih (fun y hy => h y (by simp [hy]))
    linarith

/-- Helper: the average of a non-empty list of rationals in `[0,1]` is in
`[0,1]`. -/
lemma avg_mem_unit (l : List ℚ) (hne : l ≠ []) (h : ∀ x ∈ l, 0 ≤ x ∧ x ≤ 1) :
    0 ≤ l.sum / (l.length : ℚ) ∧ l.sum / (l.length : ℚ) ≤ 1 := by
  have hlen : (0 : ℚ) < (l.length : ℚ) := by
    have : 0 < l.length := List.length_pos.mpr hne
    exact_mod_cast this
  constructor
  · exact div_nonneg (List.sum_nonneg (fun x hx => (h x hx).1)) hlen.le
  · rw [div_le_one hlen]
    exact list_sum_le_length l (fun x hx => (h x hx).2)

/-- Helper: the averaged projection of a non-empty vibe list stays in
`[0,1]` when the projection does. -/
lemma avg_map_mem_unit (f : Vibe → ℚ) (v : Vibe) (vs : List Vibe)
    (h : ∀ w ∈ v :: vs, 0 ≤ f w ∧ f w ≤ 1) :
    0 ≤ ((v :: vs).map f).sum / (((v :: vs).length : ℚ)) ∧
    ((v :: vs).map f).sum / (((v :: vs).length : ℚ)) ≤ 1 := by
  have hlen : ((v :: vs).map f).length = (v :: vs).length := List.length_map _ _
  rw [← hlen]
  apply avg_mem_unit
  · simp
  · intro x hx
    obtain ⟨w, hw, rfl⟩ := List.mem_map.mp hx
    exact h w hw

/-- C9: blending a non-empty list of readings whose confidence, generosity
and sovereignty each lie in `[0,1]` yields a reading whose confidence,
generosity and sovereignty also lie in `[0,1]`. -/
theorem blend_vibes_scalars_range (vibes : List Vibe) (hne : vibes ≠ [])
    (h : ∀ v ∈ vibes, (0 ≤ v.confidence ∧ v.confidence ≤ 1) ∧
        (0 ≤ v.generosity ∧ v.generosity ≤ 1) ∧
        (0 ≤ v.sovereignty ∧ v.sovereignty ≤ 1)) :
    (0 ≤ (Harmonizer.blend_vibes vibes).confidence ∧
      (Harmonizer.blend_vibes vibes).confidence ≤ 1) ∧
    (0 ≤ (Harmonizer.blend_vibes vibes).generosity ∧
      (Harmonizer.blend_vibes vibes).generosity ≤ 1) ∧
    (0 ≤ (Harmonizer.blend_vibes vibes).sovereignty ∧
      (Harmonizer.blend_vibes vibes).sovereignty ≤ 1) := by
  match vibes, hne with
  | v :: vs, _ =>
    have hc : (Harmonizer.blend_vibes (v :: vs)).confidence
        = ((v :: vs).map Vibe.confidence).sum / (((v :: vs).length : ℚ)) := rfl
    have hg : (Harmonizer.blend_vibes (v :: vs)).generosity
        = ((v :: vs).map Vibe.generosity).sum / (((v :: vs).length : ℚ)) := rfl
    have hs : (Harmonizer.blend_vibes (v :: vs)).sovereignty
        = ((v :: vs).map Vibe.sovereignty).sum / (((v :: vs).length : ℚ)) := rfl
    rw [hc, hg, hs]
    exact ⟨avg_map_mem_unit Vibe.confidence v vs (fun w hw => (h w hw).1),
           avg_map_mem_unit Vibe.generosity v vs (fun w hw => (h w hw).2.1),
           avg_map_mem_unit Vibe.sovereignty v vs (fun w hw => (h w hw).2.2)⟩

/-- C9 witness: the singleton list holding the default reading. -/
theorem blend_vibes_scalars_range_witness :
    (0 ≤ (Harmonizer.blend_vibes [{}]).confidence ∧
      (Harmonizer.blend_vibes [{}]).confidence ≤ 1) ∧
    (0 ≤ (Harmonizer.blend_vibes [{}]).generosity ∧
      (Harmonizer.blend_vibes [{}]).generosity ≤ 1) ∧
    (0 ≤ (Harmonizer.blend_vibes [{}]).sovereignty ∧
      (Harmonizer.blend_vibes [{}]).sovereignty ≤ 1) :=
  blend_vibes_scalars_range [{}] (by simp)
    (fun v hv => by
      rw [List.mem_singleton] at hv
      subst hv
      exact ⟨⟨show (0:ℚ) ≤ 0.8 by norm_num, show (0.8:ℚ) ≤ 1 by norm_num⟩,
             ⟨show (0:ℚ) ≤ 0.5 by norm_num, show (0.5:ℚ) ≤ 1 by norm_num⟩,
             ⟨show (0:ℚ) ≤ 1 by norm_num, show (1:ℚ) ≤ 1 by norm_num⟩⟩)

/-- Model of `ProfitLeak` (src/services/symphony/core/models.py lines 108-116): the
spec's CandidateAction. -/
structure ProfitLeak where
  action : String
  profit_potential : ℚ
  vibe : ℚ
  reason : String
  deriving DecidableEq, Repr

/-- One entry of the `silenced` audit list built inside `Silence.remove`
(src/services/symphony/utils/silence.py lines 55-60). -/
structure SilencedEntry where
  action : String
  profit_foregone : ℚ
  reason : String
  vibe : ℚ
  deriving DecidableEq, Repr

/-- Model of `Silence` state (silence.py lines 25-33): the quality threshold and the
monotonic suppressed counter. -/
structure Silence where
  vibe_threshold : ℚ := 0.5
  silenced_count : ℕ := 0
  deriving DecidableEq, Repr

/-- The result dict of `Silence.remove` (silence.py lines 66-71). -/
structure Arrangement where
  notes : List ProfitLeak
  silence_between : ℤ
  silenced_actions : List SilencedEntry
  total_profit_foregone : ℚ
  deriving DecidableEq, Repr

/-- The traversal of `Silence.remove` (silence.py lines 52-64): candidates
are visited in input order and split into kept notes and silenced audit
entries. -/
def silenceSplit (threshold : ℚ) : List ProfitLeak → List ProfitLeak × List SilencedEntry
  | [] => ([], [])
  | leak :: rest =>
    if leak.vibe < threshold then
      ((silenceSplit threshold rest).1,
       { action := leak.action
         profit_foregone := leak.profit_potential
         reason := leak.reason
         vibe := leak.vibe } :: (silenceSplit threshold rest).2)
    else
      (leak :: (silenceSplit threshold rest).1, (silenceSplit threshold rest).2)

/-- Model of `Silence.remove` (silence.py lines 35-71).  The state with the bumped
counter is returned alongside the arrangement (Python mutates `self`). -/
def Silence.remove (s : Silence) (profit_leaks : List ProfitLeak) : Arrangement × Silence :=
  let split := silenceSplit s.vibe_threshold profit_leaks
  ({ notes := split.1
     silence_between := (profit_leaks.length : ℤ) - (split.1.length : ℤ)
     silenced_actions := split.2
     total_profit_foregone := (split.2.map SilencedEntry.profit_foregone).sum },
   { s with silenced_count := s.silenced_count + split.2.length })

/-- Helper: `silenceSplit` is the order-preserving partition of the input by
the threshold test. -/
lemma silenceSplit_eq_filter (t : ℚ) (leaks : List ProfitLeak) :
    (silenceSplit t leaks).1 = leaks.filter (fun l => decide (¬ l.vibe < t)) ∧
    (silenceSplit t leaks).2 = (leaks.filter (fun l => decide (l.vibe < t))).map
        (fun l => { action := l.action
                    profit_foregone := l.profit_potential
                    reason := l.reason
                    vibe := l.vibe }) := by
  induction leaks with
  | nil => exact ⟨rfl, rfl⟩
  | cons leak rest ih =>
    by_cases h : leak.vibe < t
    · simp [silenceSplit, List.filter_cons, h, ih.1, ih.2]
    · simp [silenceSplit, List.filter_cons, h, ih.1, ih.2, not_lt.mp h]

/-- Helper: mapping `profit_foregone` over the silenced entries recovers the
`profit_potential` of the silenced candidates. -/
lemma silenced_profit_map (t : ℚ) (leaks : List ProfitLeak) :
    ((silenceSplit t leaks).2.map SilencedEntry.profit_foregone) =
      ((leaks.filter (fun l => decide (l.vibe < t))).map ProfitLeak.profit_potential) := by
  rw [(silenceSplit_eq_filter t leaks).2, List.map_map]
  rfl

/-- Helper: the two sides of the partition cover the input exactly once. -/
lemma silenceSplit_length (t : ℚ) (leaks : List ProfitLeak) :
    (silenceSplit t leaks).1.length + (silenceSplit t leaks).2.length = leaks.length := by
  induction leaks with
  | nil => rfl
  | cons leak rest ih =>
    by_cases h : leak.vibe < t
    · simp only [silenceSplit, if_pos h, List.length_cons]
      omega
    · simp only [silenceSplit, if_neg h, List.length_cons]
      omega

/-- C3: `Silence.remove` is a stable partition of the candidates by
`reading_score < threshold`: kept and silenced lists are the order-preserving
filters of the input, their lengths sum to the input length, the reported
total value foregone is the sum of the silenced candidates' value potential,
and the running suppressed counter grows by exactly the number silenced. -/
theorem silence_remove_stable_partition (s : Silence) (candidates : List ProfitLeak) :
    ((s.remove candidates).1.notes
        = candidates.filter (fun l => decide (¬ l.vibe < s.vibe_threshold))) ∧
    ((s.remove candidates).1.silenced_actions
        = (candidates.filter (fun l => decide (l.vibe < s.vibe_threshold))).map
            (fun l => { action := l.action
                        profit_foregone := l.profit_potential
                        reason := l.reason
                        vibe := l.vibe })) ∧
    ((s.remove candidates).1.notes.length + (s.remove candidates).1.silenced_actions.length
        = candidates.length) ∧
    ((s.remove candidates).1.total_profit_foregone
        = ((candidates.filter (fun l => decide (l.vibe < s.vibe_threshold))).map
            ProfitLeak.profit_potential).sum) ∧
    ((s.remove candidates).2.silenced_count
        = s.silenced_count + (s.remove candidates).1.silenced_actions.length) := by
  refine ⟨(silenceSplit_eq_filter s.vibe_threshold candidates).1,
          (silenceSplit_eq_filter s.vibe_threshold candidates).2,
          silenceSplit_length s.vibe_threshold candidates, ?_, rfl⟩
  show ((silenceSplit s.vibe_threshold candidates).2.map SilencedEntry.profit_foregone).sum = _
  rw [silenced_profit_map]

/-- Model of `Agent` (src/services/symphony/core/conductor.py lines 24-36), with the
pydantic-free defaults set in `__init__`. -/
structure Agent where
  name : String
  voice : String := "neutral"
  latency : ℚ := 0
  vibe : ℚ := 0.8
  roi : ℚ := 15
  last_ethics_violation : String := ""
  deriving DecidableEq, Repr

/-- Model of `Agent.apply_vibe` (conductor.py lines 38-40): clamp the adjusted vibe to
`[0, 1]`. -/
def Agent.apply_vibe (a : Agent) (adjustment : ℚ) : Agent :=
  { a with vibe := max 0 (min 1 (a.vibe + adjustment)) }

/-- Model of `ConductorScore` (src/services/symphony/core/models.py lines 53-63). -/
structure ConductorScore where
  tempo_adjustment : ℚ := 0
  vibe_adjustment : ℚ := 0
  arrangement_adjustment : List String := []
  latency_spikes : List ℚ := []
  ethical_clashes : List String := []
  profit_leaks : List ProfitLeak := []
  deriving DecidableEq, Repr

/-- Model of `Conductor` state (conductor.py lines 65-70): metronome, silence and the
agent registry (the vibe meter and harmonizer carry no used state). -/
structure Conductor where
  metronome : Metronome := {}
  silence : Silence := {}
  ensemble : List Agent := []
  deriving DecidableEq, Repr

/-- Model of `Conductor.listen` (conductor.py lines 76-132) over its own ensemble,
returned together with the conductor whose silence counter was bumped by
`Silence.remove`. -/
def Conductor.listen (c : Conductor) : ConductorScore × Conductor :=
  match c.ensemble with
  | [] => ({}, c)
  | _ =>
    let latency_spikes :=
      (c.ensemble.filter (fun a => decide (a.latency > c.metronome.threshold))).map Agent.latency
    let ethical_clashes :=
      (c.ensemble.filter
        (fun a => decide (a.vibe < 0.7) && decide (a.last_ethics_violation ≠ ""))).map
          Agent.last_ethics_violation
    let profit_leaks :=
      (c.ensemble.filter (fun a => decide (a.roi < 10) || decide (a.vibe < 0.5))).map
        (fun a => ({ action := a.name
                     profit_potential := a.roi * 100000
                     vibe := a.vibe
                     reason := "ROI " ++ toString a.roi ++ " but vibe "
                       ++ toString a.vibe } : ProfitLeak))
    let tempo_adjustment := c.metronome.calibrate latency_spikes
    let vibe_adjustment := Harmonizer.resolve ethical_clashes
    let arrangement := c.silence.remove profit_leaks
    ({ tempo_adjustment := tempo_adjustment
       vibe_adjustment := vibe_adjustment
       arrangement_adjustment := arrangement.1.silenced_actions.map SilencedEntry.action
       latency_spikes := latency_spikes
       ethical_clashes := ethical_clashes
       profit_leaks := profit_leaks },
     { c with silence := arrangement.2 })

/-- Model of `Conductor.adjust` (conductor.py lines 134-151): every agent receives the
score's vibe adjustment; the tempo and arrangement hooks are no-ops. -/
def Conductor.adjust (c : Conductor) (score : ConductorScore) : Conductor :=
  { c with ensemble := c.ensemble.map (fun a => a.apply_vibe score.vibe_adjustment) }

/-- Helper: both adjustments suggested by a coordination pass are
non-positive. -/
lemma listen_adjustments_nonpos (c : Conductor) :
    (c.listen).1.vibe_adjustment ≤ 0 ∧ (c.listen).1.tempo_adjustment ≤ 0 := by
  unfold Conductor.listen
  cases hsc : c.ensemble with
  | nil => simp [hsc]
  | cons a as =>
    exact ⟨Harmonizer.resolve_nonpos _, (Metronome.calibrate_mem_range _ _).2⟩

/-- Helper: a non-positive adjustment applied to a vibe in `[0,1]` never
raises it and keeps it in `[0,1]`. -/
lemma apply_vibe_nonpos (a : Agent) (adj : ℚ) (hadj : adj ≤ 0)
    (h0 : 0 ≤ a.vibe) (_h1 : a.vibe ≤ 1) :
    (a.apply_vibe adj).vibe ≤ a.vibe ∧
    0 ≤ (a.apply_vibe adj).vibe ∧ (a.apply_vibe adj).vibe ≤ 1 := by
  simp only [Agent.apply_vibe]
  refine ⟨?_, le_max_left 0 _, max_le (by norm_num) (min_le_left 1 _)⟩
  exact max_le h0 (le_trans (min_le_right 1 _) (by linarith))

/-- C10: the coordination pass suggests only non-positive adjustments
(`vibe_adjustment ≤ 0` and `tempo_adjustment ≤ 0`), `adjust` maps
`apply_vibe` of that adjustment over the ensemble, and hence — for agents
whose reading score is in `[0,1]` — applying the report never increases any
agent's reading score and keeps it in `[0,1]`. -/
theorem conductor_adjust_monotone (c : Conductor)
    (h : ∀ a ∈ c.ensemble, 0 ≤ a.vibe ∧ a.vibe ≤ 1) :
    ((c.listen).1.vibe_adjustment ≤ 0 ∧ (c.listen).1.tempo_adjustment ≤ 0) ∧
    ((c.adjust (c.listen).1).ensemble
        = c.ensemble.map (fun a => a.apply_vibe (c.listen).1.vibe_adjustment)) ∧
    (∀ a ∈ c.ensemble,
        (a.apply_vibe (c.listen).1.vibe_adjustment).vibe ≤ a.vibe ∧
        0 ≤ (a.apply_vibe (c.listen).1.vibe_adjustment).vibe ∧
        (a.apply_vibe (c.listen).1.vibe_adjustment).vibe ≤ 1) := by
  refine ⟨listen_adjustments_nonpos c, rfl, ?_⟩
  intro a ha
  exact apply_vibe_nonpos a _ (listen_adjustments_nonpos c).1 (h a ha).1 (h a ha).2

/-- A one-agent ensemble used to witness C10. -/
def soloConductor : Conductor := { ensemble := [{ name := "solo" }] }

/-- C10 witness: the theorem applied to a concrete one-agent ensemble, whose
default vibe 0.8 lies in `[0,1]`. -/
theorem conductor_adjust_monotone_witness :
    ((soloConductor.listen).1.vibe_adjustment ≤ 0 ∧
      (soloConductor.listen).1.tempo_adjustment ≤ 0) ∧
    ((soloConductor.adjust (soloConductor.listen).1).ensemble
        = soloConductor.ensemble.map
            (fun a => a.apply_vibe (soloConductor.listen).1.vibe_adjustment)) ∧
    (∀ a ∈ soloConductor.ensemble,
        (a.apply_vibe (soloConductor.listen).1.vibe_adjustment).vibe ≤ a.vibe ∧
        0 ≤ (a.apply_vibe (soloConductor.listen).1.vibe_adjustment).vibe ∧
        (a.apply_vibe (soloConductor.listen).1.vibe_adjustment).vibe ≤ 1) :=
  conductor_adjust_monotone soloConductor
    (fun a ha => by
      rw [show soloConductor.ensemble = [{ name := "solo" }] from rfl,
        List.mem_singleton] at ha
      subst ha
      exact ⟨show (0:ℚ) ≤ 0.8 by norm_num, show (0.8:ℚ) ≤ 1 by norm_num⟩)

/-- Model of `Adjustment` (src/services/symphony/core/models.py lines 44-50). -/
structure Adjustment where
  gain : ℚ := 0
  generosity : ℚ := 0
  power_xfer : ℚ := 0
  empowerment : ℚ := 0
  tempo : String := "steady"
  deriving DecidableEq, Repr

/-- A proposal output: the numeric fields of the Python `Dict[str, Any]` that
the loop consumes, as an association list. -/
abbrev FuncOutput := List (String × ℚ)

/-- Model of `output.get(key, 0)` (figure_eight.py lines 223-228): lookup with a zero
default. -/
def FuncOutput.get (o : FuncOutput) (key : String) : ℚ :=
  match o.find? (fun kv => kv.1 == key) with
  | some kv => kv.2
  | none => 0

/-- Model of `InfinityTapeRecord` (models.py lines 143-149). -/
structure InfinityTapeRecord where
  iteration : ℕ
  function_output : FuncOutput
  vibe_output : Vibe
  adjustment : Adjustment
  timestamp : String
  deriving DecidableEq, Repr

/-- Model of `InfiniteTape` state (src/services/symphony/core/figure_eight.py lines
25-35).  The file path carries no logic; the record timestamp comes from the
wall clock and is a caller-supplied string here. -/
structure InfiniteTape where
  records : List InfinityTapeRecord := []
  count : ℕ := 0
  current_aura : String := "neutral"
  deriving DecidableEq, Repr

/-- Model of `InfiniteTape.record` (figure_eight.py lines 37-63): append one record,
set `count = iteration + 1` and track the latest aura. -/
def InfiniteTape.record (t : InfiniteTape) (iteration : ℕ) (func : FuncOutput)
    (vibe : Vibe) (adjustment : Adjustment) (timestamp : String) : InfiniteTape :=
  { records := t.records ++ [{ iteration := iteration
                               function_output := func
                               vibe_output := vibe
                               adjustment := adjustment
                               timestamp := timestamp }]
    count := iteration + 1
    current_aura := vibe.aura }

/-- Model of `FigureEight.SAVE_FREQUENCY` (figure_eight.py line 162). -/
def SAVE_FREQUENCY : ℕ := 10

/-- Model of `FigureEight._feel_the_vibe` (figure_eight.py lines 210-228). -/
def feel_the_vibe (output : FuncOutput) : Vibe :=
  VibeMeter.read (output.get "sovereignty_delta") (output.get "dignity_delta")
    (output.get "defense_delta") (output.get "profit_delta")

/-- Model of `FigureEight._adjust_based_on_vibe` (figure_eight.py lines 230-266); its
`function` argument is unused in the source and omitted. -/
def adjust_based_on_vibe (vibe : Vibe) : Adjustment :=
  if vibe.signature = VibeSignature.EXTRACTIVE then
    { gain := -0.2, generosity := 0.3, tempo := "slower" }
  else if vibe.signature = VibeSignature.DIMINISHING then
    { power_xfer := 0.5, empowerment := 0.4, tempo := "warmer" }
  else if vibe.signature = VibeSignature.MUDDY then
    { gain := -0.1, generosity := 0.1, tempo := "slower" }
  else
    { gain := 0.1, tempo := "steady" }

/-- Model of `Output` (models.py lines 98-105). -/
structure Output where
  data : FuncOutput
  feeling : Vibe
  aura : String := "neutral"
  deriving DecidableEq, Repr

/-- Model of `FigureEight.execute_with_vibe` (figure_eight.py lines 170-208).  The
periodic checkpoint write (`self.loop.save()` guarded by
`self.loop.count % SAVE_FREQUENCY == 0` after the record) is modelled by the
returned Boolean flag; the proposer and the wall-clock timestamp are
parameters. -/
def execute_with_vibe (propose : FuncOutput → FuncOutput) (tape : InfiniteTape)
    (input_data : FuncOutput) (timestamp : String) : InfiniteTape × Bool × Output :=
  let function_output := propose input_data
  let vibe_output := feel_the_vibe function_output
  let adjustment := adjust_based_on_vibe vibe_output
  let tape' := tape.record tape.count function_output vibe_output adjustment timestamp
  let didSave := tape'.count % SAVE_FREQUENCY == 0
  (tape', didSave,
    { data := function_output, feeling := vibe_output, aura := tape'.current_aura })

/-- Runs `n` successive calls of `execute_with_vibe` on one loop, collecting the
checkpoint flags in call order. -/
def runIterations (propose : FuncOutput → FuncOutput) (input_data : FuncOutput)
    (timestamp : String) : InfiniteTape → ℕ → InfiniteTape × List Bool
  | tape, 0 => (tape, [])
  | tape, n + 1 =>
    let step := execute_with_vibe propose tape input_data timestamp
    let rest := runIterations propose input_data timestamp step.1 n
    (rest.1, step.2.1 :: rest.2)

/-- Helper: one call appends exactly one record, so the counter advances by
one. -/
lemma execute_with_vibe_count (propose : FuncOutput → FuncOutput) (tape : InfiniteTape)
    (input_data : FuncOutput) (ts : String) :
    (execute_with_vibe propose tape input_data ts).1.count = tape.count + 1 := rfl

/-- Helper: the checkpoint flag of one call is exactly the source's modulus
test on the post-append counter. -/
lemma execute_with_vibe_flag (propose : FuncOutput → FuncOutput) (tape : InfiniteTape)
    (input_data : FuncOutput) (ts : String) :
    (execute_with_vibe propose tape input_data ts).2.1
      = ((tape.count + 1) % SAVE_FREQUENCY == 0) := rfl

/-- Helper: the flag sequence of `n` calls from any starting counter. -/
lemma runIterations_flags (propose : FuncOutput → FuncOutput) (input_data : FuncOutput)
    (ts : String) (n : ℕ) :
    ∀ tape : InfiniteTape,
      (runIterations propose input_data ts tape n).2
        = (List.range n).map (fun k => (tape.count + k + 1) % SAVE_FREQUENCY == 0) := by
  induction n with
  | zero => intro tape; rfl
  | succ n ih =>
    intro tape
    simp only [runIterations, ih, execute_with_vibe_count, execute_with_vibe_flag,
      List.range_succ_eq_map, List.map_cons, List.map_map]
    refine congrArg₂ List.cons (by simp) ?_
    apply List.map_congr_left
    intro k _
    simp only [Function.comp_apply]
    have harg : tape.count + 1 + k + 1 = tape.count + k.succ + 1 := by omega
    rw [harg]

/-- C4: from a fresh loop, the k-th append (1-indexed) triggers the
checkpoint exactly when k is a multiple of `SAVE_FREQUENCY = 10`; running the
iteration 12 times triggers exactly one checkpoint, at the 10th append. -/
theorem figure_eight_checkpoint_cadence (propose : FuncOutput → FuncOutput)
    (input_data : FuncOutput) (ts : String) :
    (∀ n : ℕ, (runIterations propose input_data ts {} n).2
        = (List.range n).map (fun k => (k + 1) % SAVE_FREQUENCY == 0)) ∧
    ((runIterations propose input_data ts {} 12).2
        = [false, false, false, false, false, false, false, false, false,
           true, false, false]) ∧
    ((runIterations propose input_data ts {} 12).2.count true = 1) := by
  have hgen : ∀ n : ℕ, (runIterations propose input_data ts {} n).2
      = (List.range n).map (fun k => (k + 1) % SAVE_FREQUENCY == 0) := by
    intro n
    have h := runIterations_flags propose input_data ts n {}
    simpa using h
  refine ⟨hgen, ?_, ?_⟩
  · rw [hgen 12]
    decide
  · rw [hgen 12]
    decide

/-- The JSON document written by `InfiniteTape.save` and read back by
`InfiniteTape.load` (figure_eight.py lines 65-89): `json.dump` serializes the
records' pydantic dicts, so the file content is modelled as the JSON value
itself (numbers as exact rationals). -/
inductive JsonValue
  | num (q : ℚ)
  | str (s : String)
  | arr (xs : List JsonValue)
  | obj (fields : List (String × JsonValue))

/-- Inverse of `VibeSignature.value`, as `VibeSignature(value)` performs on
load (the enum is keyed by its string value). -/
def decodeSignature (s : String) : Option VibeSignature :=
  if s = "clean" then some VibeSignature.CLEAN
  else if s = "warm" then some VibeSignature.WARM
  else if s = "muddy" then some VibeSignature.MUDDY
  else if s = "extractive" then some VibeSignature.EXTRACTIVE
  else if s = "diminishing" then some VibeSignature.DIMINISHING
  else if s = "generous" then some VibeSignature.GENEROUS
  else if s = "empowering" then some VibeSignature.EMPOWERING
  else none

/-- Model of `Vibe.dict()` as serialized by `json.dump`. -/
def encodeVibe (v : Vibe) : JsonValue :=
  .obj [("signature", .str v.signature.value),
        ("confidence", .num v.confidence),
        ("generosity", .num v.generosity),
        ("sovereignty", .num v.sovereignty),
        ("aura", .str v.aura),
        ("sovereignty_delta", .num v.sovereignty_delta),
        ("dignity_delta", .num v.dignity_delta),
        ("defense_delta", .num v.defense_delta),
        ("profit_delta", .num v.profit_delta)]

/-- Model of `Vibe(**d)` applied to a loaded dict of the saved shape. -/
def decodeVibe : JsonValue → Option Vibe
  | .obj [("signature", .str sig), ("confidence", .num c), ("generosity", .num g),
          ("sovereignty", .num sov), ("aura", .str au), ("sovereignty_delta", .num sd),
          ("dignity_delta", .num dd), ("defense_delta", .num fd),
          ("profit_delta", .num pd)] =>
    (decodeSignature sig).map (fun s =>
      { signature := s, confidence := c, generosity := g, sovereignty := sov, aura := au,
        sovereignty_delta := sd, dignity_delta := dd, defense_delta := fd,
        profit_delta := pd })
  | _ => none

/-- Model of `Adjustment.dict()` as serialized by `json.dump`. -/
def encodeAdjustment (a : Adjustment) : JsonValue :=
  .obj [("gain", .num a.gain), ("generosity", .num a.generosity),
        ("power_xfer", .num a.power_xfer), ("empowerment", .num a.empowerment),
        ("tempo", .str a.tempo)]

/-- Model of `Adjustment(**d)` applied to a loaded dict of the saved shape. -/
def decodeAdjustment : JsonValue → Option Adjustment
  | .obj [("gain", .num g), ("generosity", .num gen), ("power_xfer", .num px),
          ("empowerment", .num em), ("tempo", .str tp)] =>
    some { gain := g, generosity := gen, power_xfer := px, empowerment := em, tempo := tp }
  | _ => none

/-- A numeric proposal-output dict as serialized by `json.dump`. -/
def encodeFuncOutput (o : FuncOutput) : JsonValue :=
  .obj (o.map (fun kv => (kv.1, JsonValue.num kv.2)))

/-- Reads back the entries of a numeric dict, failing on any non-numeric
value. -/
def decodeFields : List (String × JsonValue) → Option FuncOutput
  | [] => some []
  | (k, .num q) :: rest =>
    match decodeFields rest with
    | some kvs => some ((k, q) :: kvs)
    | none => none
  | _ => none

/-- Reads back a numeric proposal-output dict. -/
def decodeFuncOutput : JsonValue → Option FuncOutput
  | .obj fields => decodeFields fields
  | _ => none

/-- Model of `InfinityTapeRecord.dict()` as serialized by `json.dump` (the iteration
index is a JSON number). -/
def encodeRecord (r : InfinityTapeRecord) : JsonValue :=
  .obj [("iteration", .num (r.iteration : ℚ)),
        ("function_output", encodeFuncOutput r.function_output),
        ("vibe_output", encodeVibe r.vibe_output),
        ("adjustment", encodeAdjustment r.adjustment),
        ("timestamp", .str r.timestamp)]

/-- Reads a JSON number back as the natural iteration index it encodes. -/
def decodeNat (q : ℚ) : Option ℕ :=
  if q = (q.num.toNat : ℚ) then some q.num.toNat else none

/-- Model of `InfinityTapeRecord(**r)` applied to a loaded dict of the saved shape. -/
def decodeRecord : JsonValue → Option InfinityTapeRecord
  | .obj [("iteration", .num itq), ("function_output", fo), ("vibe_output", vo),
          ("adjustment", adj), ("timestamp", .str ts)] =>
    match decodeNat itq, decodeFuncOutput fo, decodeVibe vo, decodeAdjustment adj with
    | some it, some f, some v, some a =>
      some { iteration := it, function_output := f, vibe_output := v, adjustment := a,
             timestamp := ts }
    | _, _, _, _ => none
  | _ => none

/-- The list comprehension `[InfinityTapeRecord(**r) for r in data]`: fails
as a whole when any element fails, leaving the tape untouched. -/
def decodeRecordList : List JsonValue → Option (List InfinityTapeRecord)
  | [] => some []
  | j :: rest =>
    match decodeRecord j, decodeRecordList rest with
    | some r, some rs => some (r :: rs)
    | _, _ => none

/-- Model of `InfiniteTape.save` (figure_eight.py lines 65-75): overwrites the file
with the JSON array of the records' dicts.  The successful write path is
modelled; a failed write only logs a warning in the source. -/
def InfiniteTape.save (t : InfiniteTape) : JsonValue :=
  .arr (t.records.map encodeRecord)

/-- Model of `InfiniteTape.load` (figure_eight.py lines 77-89): a missing file
(`none`) or undecodable content leaves the state unchanged; otherwise the
records are replaced, `count` becomes their number, and `current_aura` the
last record's aura when the list is non-empty. -/
def InfiniteTape.load (t : InfiniteTape) (disk : Option JsonValue) : InfiniteTape :=
  match disk with
  | none => t
  | some (.arr xs) =>
    match decodeRecordList xs with
    | some rs =>
      { t with records := rs
               count := rs.length
               current_aura := match rs.getLast? with
                 | some r => r.vibe_output.aura
                 | none => t.current_aura }
    | none => t
  | some _ => t

/-- Helper: decoding a signature's string value recovers the signature. -/
lemma decodeSignature_value (s : VibeSignature) : decodeSignature s.value = some s := by
  cases s <;> rfl

/-- Helper: Vibe serialization round-trip. -/
lemma decodeVibe_encodeVibe (v : Vibe) : decodeVibe (encodeVibe v) = some v := by
  rcases v with ⟨sig, c, g, sov, au, sd, dd, fd, pd⟩
  simp [encodeVibe, decodeVibe, decodeSignature_value]

/-- Helper: Adjustment serialization round-trip. -/
lemma decodeAdjustment_encodeAdjustment (a : Adjustment) :
    decodeAdjustment (encodeAdjustment a) = some a := by
  rcases a with ⟨g, gen, px, em, tp⟩
  rfl

/-- Helper: numeric-dict serialization round-trip. -/
lemma decodeFuncOutput_encodeFuncOutput (o : FuncOutput) :
    decodeFuncOutput (encodeFuncOutput o) = some o := by
  induction o with
  | nil => rfl
  | cons kv rest ih =>
    rcases kv with ⟨k, q⟩
    simp only [encodeFuncOutput, List.map_cons, decodeFuncOutput, decodeFields]
    have ihf : decodeFields (rest.map (fun kv => (kv.1, JsonValue.num kv.2))) = some rest := ih
    rw [ihf]

/-- Helper: the encoded iteration index decodes to itself. -/
lemma decodeNat_natCast (n : ℕ) : decodeNat (n : ℚ) = some n := by
  simp [decodeNat]

/-- Helper: record serialization round-trip. -/
lemma decodeRecord_encodeRecord (r : InfinityTapeRecord) :
    decodeRecord (encodeRecord r) = some r := by
  rcases r with ⟨it, fo, vo, adj, ts⟩
  simp [encodeRecord, decodeRecord, decodeNat_natCast, decodeFuncOutput_encodeFuncOutput,
    decodeVibe_encodeVibe, decodeAdjustment_encodeAdjustment]

/-- Helper: record-list serialization round-trip. -/
lemma decodeRecordList_encode (rs : List InfinityTapeRecord) :
    decodeRecordList (rs.map encodeRecord) = some rs := by
  induction rs with
  | nil => rfl
  | cons r rest ih => simp [decodeRecordList, decodeRecord_encodeRecord, ih]

/-- C5: checkpoint/restore round-trip — saving a tape and restoring the
saved document into a fresh tape reproduces the identical ordered record
list (same records, same order, same iteration indices), and sets the
restored counter to the number of records. -/
theorem infinite_tape_roundtrip (t : InfiniteTape) :
    (InfiniteTape.load {} (some t.save)).records = t.records ∧
    (InfiniteTape.load {} (some t.save)).count = t.records.length := by
  simp [InfiniteTape.save, InfiniteTape.load, decodeRecordList_encode]
